import Mathlib

/-!
Verification of the notification dispatch framework in
`homeassistant/components/notify/__init__.py`.

Shallow embedding conventions:
* `datetime` values returned by `dt_util.utcnow()` are modelled as natural
  numbers (seconds since the epoch); `.isoformat()` is an injective,
  order-preserving encoding of such a value, so the stored
  `__last_notified_isoformat` string is modelled by the timestamp itself.
* Python attributes that may be absent (probed with `hasattr`) are modelled
  as `Option` fields: `none` means the attribute is not set on the instance
  or its class, `some v` means it is set and holds `v`.
* A `cached_property` is modelled by an explicit cache field: reading through
  the property consults the cache and fills it on a miss; `del` on the
  property empties the cache.
* Raising an exception is modelled with `Except`: `send` implementations
  return `Except SendError Unit`, and `raise NotImplementedError()` becomes
  `.error .notImplemented`.
* Method overriding by a subclass is modelled by optional override fields on
  the entity: `none` selects the base-class body embedded here.
-/

/-- Timestamps produced by `dt_util.utcnow()`, modelled as seconds since the
epoch.  `isoformat` encodings compare the same way the underlying instants
do, so we keep the instant itself. -/
abbrev Timestamp := Nat

/-- Untyped service-call payload values (the JSON-like data arriving in a
`ServiceCall`). -/
inductive Val where
  | str (s : String)
  | num (n : Int)
  | boolean (b : Bool)
  | vlist (items : List Val)
  | vdict (entries : List (String × Val))
deriving Repr

/-- Free-form structured payload (`data: Mapping[str, Any]`). -/
abbrev DataDict := List (String × Val)

/-- Errors a target's `send` can signal.  `notImplemented` is the
`NotImplementedError` raised by the base-class `send_message`;
`implFailure` is any error raised by a concrete implementation. -/
inductive SendError where
  | notImplemented
  | implFailure (code : Nat)
deriving DecidableEq, Repr

/-- Result of running a send: `ok` on success, `error` when the
implementation raised. -/
abbrev SendResult := Except SendError Unit

/-- Embedding of `NotifyDeviceClass` from the source: the single capability tag
`message_notifier`. -/
inductive NotifyDeviceClass where
  | message_notifier
deriving DecidableEq, Repr

/-- Embedding of `NotifyEntityDescription`: the static entity description; the only field
the notify component adds is `device_class`. -/
structure NotifyEntityDescription where
  device_class : Option NotifyDeviceClass := none
deriving DecidableEq, Repr

/-- The observable data of a `NotifyEntity` instance together with the
pieces of host machinery its methods touch.

* `lastNotified` embeds `__last_notified_isoformat` (class default `None`).
* `stateCache` embeds the `cached_property` cache of the `state` property.
* `attrDeviceClass` embeds the `_attr_device_class` attribute; the class
  only annotates it, so a fresh instance has it absent (`none`).
* `entityDescription` embeds the `entity_description` attribute, likewise
  only annotated on the class, hence optional.
* `deviceClassCache` embeds the `cached_property` cache of `device_class`
  (listed in `CACHED_PROPERTIES_WITH_ATTR_`).
* `sendMessageOverride` / `asyncSendMessageOverride` model a subclass
  overriding `send_message` / `async_send_message`; `none` means the
  base-class body below runs. -/
structure NotifyEntity where
  lastNotified : Option Timestamp := none
  stateCache : Option (Option Timestamp) := none
  attrDeviceClass : Option (Option NotifyDeviceClass) := none
  entityDescription : Option NotifyEntityDescription := none
  deviceClassCache : Option (Option NotifyDeviceClass) := none
  sendMessageOverride :
    Option (Option String → Option String → Option (List String) →
      Option DataDict → SendResult) := none
  asyncSendMessageOverride :
    Option (Option String → Option String → Option (List String) →
      Option DataDict → SendResult) := none

/-- A `NotifyEntity` as freshly constructed: every field at its class
default, in particular `__last_notified_isoformat = None` and both cached
properties unevaluated. -/
def freshEntity : NotifyEntity := {}

namespace NotifyEntity

/-- Reading the `state` cached property: return the cached value when one is
present, otherwise evaluate the property body (`return
self.__last_notified_isoformat`) and remember the result. -/
def stateRead (e : NotifyEntity) : Option Timestamp × NotifyEntity :=
  match e.stateCache with
  | some v => (v, e)
  | none => (e.lastNotified, { e with stateCache := some e.lastNotified })

/-- Embedding of `__set_state`: first `del self.state` (drop the cached property value;
the `AttributeError` when nothing is cached is swallowed), then assign
`self.__last_notified_isoformat = state`. -/
def set_state (e : NotifyEntity) (s : Option Timestamp) : NotifyEntity :=
  { e with stateCache := none, lastNotified := s }

/-- The `device_class` property body: if the instance has
`_attr_device_class`, return it; else if it has an `entity_description`,
return that description's device class; else `None`. -/
def device_class (e : NotifyEntity) : Option NotifyDeviceClass :=
  match e.attrDeviceClass with
  | some v => v
  | none =>
    match e.entityDescription with
    | some d => d.device_class
    | none => none

/-- Reading the `device_class` cached property: cached value when present,
otherwise evaluate `device_class` and remember the result. -/
def deviceClassRead (e : NotifyEntity) : Option NotifyDeviceClass × NotifyEntity :=
  match e.deviceClassCache with
  | some v => (v, e)
  | none => (e.device_class, { e with deviceClassCache := some e.device_class })

/-- Writing `_attr_device_class`.  `device_class` is listed in
`CACHED_PROPERTIES_WITH_ATTR_`, and the host entity machinery (spec §1:
"the host's generic entity lifecycle ... assumed to exist") installs a
setter for the backing attribute that drops the cached property value, so a
write is never shadowed by a stale cache. -/
def setAttrDeviceClass (e : NotifyEntity) (v : Option NotifyDeviceClass) :
    NotifyEntity :=
  { e with attrDeviceClass := some v, deviceClassCache := none }

/-- The base-class `send_message` body `raise NotImplementedError()`, behind
the override point: a subclass that overrides it supplies its own body. -/
def send_message (e : NotifyEntity) (message title : Option String)
    (recipients : Option (List String)) (data : Option DataDict) : SendResult :=
  match e.sendMessageOverride with
  | some f => f message title recipients data
  | none => .error .notImplemented

end NotifyEntity

/-- A job handed to the executor pool:
`hass.async_add_executor_job(partial(f, message, title, recipients, data))`
captures the callable and its four positional arguments at submission
time. -/
structure ExecutorJob where
  fn : Option String → Option String → Option (List String) →
    Option DataDict → SendResult
  message : Option String
  title : Option String
  recipients : Option (List String)
  data : Option DataDict

/-- Running a submitted job on a worker: apply the captured callable to the
captured arguments, in order. -/
def ExecutorJob.run (j : ExecutorJob) : SendResult :=
  j.fn j.message j.title j.recipients j.data

namespace NotifyEntity

/-- The base-class `async_send_message` body, behind the override point: by
default it submits the blocking `send_message` to the executor with the same
four arguments and awaits the job. -/
def async_send_message (e : NotifyEntity) (message title : Option String)
    (recipients : Option (List String)) (data : Option DataDict) : SendResult :=
  match e.asyncSendMessageOverride with
  | some f => f message title recipients data
  | none => (ExecutorJob.mk e.send_message message title recipients data).run

end NotifyEntity

/-- One observable step taken while a dispatch executes. -/
inductive DispatchEvent where
  | stamp (t : Timestamp)
  | publish (s : Option Timestamp)
  | sendStart (message title : Option String) (recipients : Option (List String))
      (data : Option DataDict)
  | sendEnd (r : SendResult)
  | handoff
  | returnToCaller

/-- Event `a` occurs strictly before event `b` in the trace `tr`. -/
def eventBefore (tr : List DispatchEvent) (a b : DispatchEvent) : Prop :=
  ∃ i j : Nat, i < j ∧ tr[i]? = some a ∧ tr[j]? = some b

namespace NotifyEntity

/-- Embedding of `_async_send_message`, the dispatch body run once the service layer has
resolved the target: `self.__set_state(dt_util.utcnow().isoformat())`, then
`self.async_write_ha_state()` (which reads the `state` property and
publishes the value it returns), then `await self.async_send_message(...)`.
Returns the entity as left behind, the send result, and the trace of
observable steps in execution order. -/
def _async_send_message (e : NotifyEntity) (now : Timestamp)
    (message title : Option String) (recipients : Option (List String))
    (data : Option DataDict) :
    NotifyEntity × SendResult × List DispatchEvent :=
  let e1 := e.set_state (some now)
  let published := e1.stateRead.1
  let e2 := e1.stateRead.2
  let r := e2.async_send_message message title recipients data
  (e2, r,
    [.stamp now, .publish published,
     .sendStart message title recipients data, .sendEnd r])

end NotifyEntity

/-- The entity as it stands right after a process restart.  `prior` is the
target's previously recorded state, which the `RestoreEntity` base class
persisted and makes available on startup.  The source's `NotifyEntity`
declares the class default `__last_notified_isoformat = None` and overrides
no add-to-hass hook, so nothing ever reads `prior` into the new instance:
the attribute is name-mangled and only `__set_state` (reached from
`_async_send_message`) assigns it.  The restarted entity is therefore
indistinguishable from a fresh one. -/
def entityAfterRestart (_prior : Option Timestamp) : NotifyEntity :=
  freshEntity

/-- The four optional fields of `SERVICE_SEND_MESSAGE_SCHEMA` as they arrive in a
service call: `none` when the caller omitted the field, `some v` when it
supplied payload value `v`. -/
structure ServiceCallData where
  message : Option Val := none
  title : Option Val := none
  recipients : Option Val := none
  data : Option Val := none

/-- Modelled from the spec: the `cv.string` field validator (host validation
machinery, consumed but not reimplemented here).  Per §7, wrong-typed
arguments are a `ValidationFailure`, and the claim's reading is that a
string field is accepted exactly when it is a string. -/
def isStringVal : Val → Bool
  | .str _ => true
  | _ => false

/-- Modelled from the spec: the recipients validator
(`ensure_list` + `[cv.string]` in the source), accepting an ordered
sequence of strings (§3: "recipients (optional ordered sequence of
strings)"). -/
def isStringListVal : Val → Bool
  | .vlist items => items.all isStringVal
  | _ => false

/-- Modelled from the spec: the `dict` validator, accepting a mapping (§3:
"data (optional opaque mapping)"). -/
def isDictVal : Val → Bool
  | .vdict _ => true
  | _ => false

/-- Embedding of `SERVICE_SEND_MESSAGE_SCHEMA`: every field is optional (`vol.Optional`),
and a present field must pass its validator — `message` and `title` are
strings, `recipients` a sequence of strings, `data` a mapping. -/
def SERVICE_SEND_MESSAGE_SCHEMA (c : ServiceCallData) : Bool :=
  (match c.message with | none => true | some v => isStringVal v) &&
  (match c.title with | none => true | some v => isStringVal v) &&
  (match c.recipients with | none => true | some v => isStringListVal v) &&
  (match c.data with | none => true | some v => isDictVal v)

/-- The registry of notify targets: identity key → entity. -/
structure Registry where
  entities : List (String × NotifyEntity)

/-- Registry lookup (`resolve`): look an identity up in the registry. -/
def Registry.resolve (reg : Registry) (id_ : String) : Option NotifyEntity :=
  (reg.entities.find? (fun p => p.1 == id_)).map Prod.snd

/-- Outcome of a `notify.send_message` service call. -/
inductive ServiceOutcome where
  | validationFailure
  | targetNotFound
  | dispatched (r : SendResult)
deriving Repr

/-- Modelled from the spec: the host service-call routing registered by
`async_setup` via `async_register_entity_service(SERVICE_SEND_MESSAGE,
SERVICE_SEND_MESSAGE_SCHEMA, "_async_send_message")`.  The host machinery
(assumed, not reimplemented — spec §1) validates the call against the
schema before resolving the target, rejects unknown identities before any
side effect, and otherwise runs the entity's `_async_send_message`,
storing the updated entity back.  Returns the registry as left behind and
the outcome. -/
def handle_send_message (reg : Registry) (id_ : String) (c : ServiceCallData)
    (now : Timestamp) : Registry × ServiceOutcome :=
  if SERVICE_SEND_MESSAGE_SCHEMA c then
    match reg.resolve id_ with
    | none => (reg, .targetNotFound)
    | some e =>
      let msg := c.message.bind (fun v => match v with | .str s => some s | _ => none)
      let ttl := c.title.bind (fun v => match v with | .str s => some s | _ => none)
      let rcp := c.recipients.bind (fun v =>
        match v with
        | .vlist items => some (items.filterMap
            (fun w => match w with | .str s => some s | _ => none))
        | _ => none)
      let dat := c.data.bind (fun v => match v with | .vdict kv => some kv | _ => none)
      let out := e._async_send_message now msg ttl rcp dat
      ({ entities := reg.entities.map
          (fun p => if p.1 == id_ then (p.1, out.1) else p) },
       .dispatched out.2.1)
  else
    (reg, .validationFailure)

/-- Modelled from the spec: the design-note model of Execution Offload
(§9: "submit to worker pool, return a handle that may optionally be
awaited") — submit the blocking `send_message` to a worker with the same
four arguments, in order, yielding a handle whose await produces the
blocking call's result. -/
def specSubmitBlockingSend (e : NotifyEntity) (message title : Option String)
    (recipients : Option (List String)) (data : Option DataDict) : ExecutorJob :=
  { fn := e.send_message, message := message, title := title,
    recipients := recipients, data := data }

/-- Modelled from the spec: the dispatch operation as seen by a caller of
the service surface (§4.3).  The stamp, the publish and the hand-off to
Execution Offload happen on the dispatch path; a caller that did not
request blocking gets control back once the send is handed off, while the
send completes later; a caller that explicitly awaits completion gets
control back only after the send has completed. -/
def serviceCallTrace (blocking : Bool) (now : Timestamp) (r : SendResult) :
    List DispatchEvent :=
  if blocking then
    [.stamp now, .publish (some now), .handoff, .sendEnd r, .returnToCaller]
  else
    [.stamp now, .publish (some now), .handoff, .returnToCaller, .sendEnd r]

/-- Identity key used in concrete test instances. -/
def pagerId : String := "pager"

/-- Message text used in concrete test instances. -/
def hiText : String := "hi"

/-- A concrete target implementation: succeeds when a message is supplied,
fails otherwise. -/
def sampleSendImpl : Option String → Option String → Option (List String) →
    Option DataDict → SendResult :=
  fun message _ _ _ =>
    match message with
    | some _ => .ok ()
    | none => .error (.implFailure 1)

/-- A concrete target that overrides the blocking `send_message` with
`sampleSendImpl` and keeps the default asynchronous path. -/
def sampleEntity : NotifyEntity := { sendMessageOverride := some sampleSendImpl }

/-- A concrete one-target registry. -/
def sampleRegistry : Registry := { entities := [(pagerId, sampleEntity)] }

/-- C1: on every dispatch that reached `_async_send_message`, the trace first
stamps `last_activation_timestamp` to the current time, then publishes the
updated observable state (the published value is the fresh stamp), and only
then starts the target's send; this ordering holds for every entity, hence
regardless of whether the send succeeds or fails. -/
theorem stamp_publish_before_send (e : NotifyEntity) (now : Timestamp)
    (m t : Option String) (r : Option (List String)) (d : Option DataDict) :
    (e._async_send_message now m t r d).2.2 =
      [.stamp now, .publish (some now), .sendStart m t r d,
       .sendEnd (e._async_send_message now m t r d).2.1] ∧
    eventBefore (e._async_send_message now m t r d).2.2
      (.stamp now) (.sendStart m t r d) ∧
    eventBefore (e._async_send_message now m t r d).2.2
      (.publish (some now)) (.sendStart m t r d) := by
  refine ⟨rfl, ⟨0, 2, by omega, rfl, rfl⟩, ⟨1, 2, by omega, rfl, rfl⟩⟩

/-- C2: the observable state is absent on a fresh entity, every dispatch sets
it to the dispatch's activation timestamp whatever the send outcome, and no
other operation of the entity changes it — in particular none returns it to
absent, so once stamped it always holds the most recent activation. -/
theorem state_never_back_to_idle :
    freshEntity.lastNotified = none ∧
    (∀ (e : NotifyEntity) (now : Timestamp) (m t : Option String)
       (r : Option (List String)) (d : Option DataDict),
       (e._async_send_message now m t r d).1.lastNotified = some now) ∧
    (∀ e : NotifyEntity, e.stateRead.2.lastNotified = e.lastNotified) ∧
    (∀ (e : NotifyEntity) (v : Option NotifyDeviceClass),
       (e.setAttrDeviceClass v).lastNotified = e.lastNotified) ∧
    (∀ e : NotifyEntity, e.deviceClassRead.2.lastNotified = e.lastNotified) := by
  refine ⟨rfl, fun e now m t r d => rfl, fun e => ?_, fun e v => rfl, fun e => ?_⟩
  · cases h : e.stateCache <;> simp [NotifyEntity.stateRead, h]
  · cases h : e.deviceClassCache <;> simp [NotifyEntity.deviceClassRead, h]

/-- C3 (the claim fails on the code): after a restart, a target whose prior
recorded state is available is left with an absent observable state — the
source never reloads the persisted value, so the pre-restart dispatch
history is not visible.  Evaluated at the concrete prior timestamp
1700000000. -/
theorem restart_does_not_restore_state :
    (entityAfterRestart (some 1700000000)).stateRead.1 = none ∧
    (entityAfterRestart (some 1700000000)).stateRead.1 ≠ some 1700000000 ∧
    entityAfterRestart (some 1700000000) = entityAfterRestart none := by
  refine ⟨rfl, by simp [entityAfterRestart, freshEntity, NotifyEntity.stateRead], rfl⟩

/-- C4: in the service-level dispatch trace, control returns to the caller
after the send has been handed off to Execution Offload; when the caller
did not request blocking the return precedes the send's completion, and
completion precedes the return only when the caller explicitly awaits it. -/
theorem dispatch_returns_at_handoff (blocking : Bool) (now : Timestamp)
    (r : SendResult) :
    eventBefore (serviceCallTrace blocking now r) .handoff .returnToCaller ∧
    (blocking = false →
      eventBefore (serviceCallTrace blocking now r) .returnToCaller (.sendEnd r)) ∧
    (blocking = true →
      eventBefore (serviceCallTrace blocking now r) (.sendEnd r) .returnToCaller) := by
  cases blocking with
  | false =>
    refine ⟨⟨2, 3, by omega, rfl, rfl⟩,
      fun _ => ⟨3, 4, by omega, rfl, rfl⟩, fun h => ?_⟩
    simp at h
  | true =>
    refine ⟨⟨2, 4, by omega, rfl, rfl⟩, fun h => ?_,
      fun _ => ⟨3, 4, by omega, rfl, rfl⟩⟩
    simp at h

/-- Closed instance of C4's theorem at a non-blocking call. -/
theorem dispatch_returns_at_handoff_witness :
    eventBefore (serviceCallTrace false 7 (.ok ())) .handoff .returnToCaller ∧
    (false = false →
      eventBefore (serviceCallTrace false 7 (.ok ())) .returnToCaller (.sendEnd (.ok ()))) ∧
    (false = true →
      eventBefore (serviceCallTrace false 7 (.ok ())) (.sendEnd (.ok ())) .returnToCaller) :=
  dispatch_returns_at_handoff false 7 (.ok ())

/-- C5: two dispatches submitted sequentially by one caller read the clock in
program order (`h`), and each records exactly its own clock reading, so the
timestamp recorded by the later dispatch is at least the earlier one. -/
theorem sequential_dispatch_monotone (e : NotifyEntity) (t1 t2 : Timestamp)
    (m1 ti1 m2 ti2 : Option String) (r1 r2 : Option (List String))
    (d1 d2 : Option DataDict) (h : t1 ≤ t2) :
    (e._async_send_message t1 m1 ti1 r1 d1).1.lastNotified = some t1 ∧
    ((e._async_send_message t1 m1 ti1 r1 d1).1._async_send_message
        t2 m2 ti2 r2 d2).1.lastNotified = some t2 ∧
    t1 ≤ t2 := by
  exact ⟨rfl, rfl, h⟩

/-- Closed instance of C5's theorem at clock readings 3 ≤ 5. -/
theorem sequential_dispatch_monotone_witness :
    (freshEntity._async_send_message 3 none none none none).1.lastNotified = some 3 ∧
    ((freshEntity._async_send_message 3 none none none none).1._async_send_message
        5 none none none none).1.lastNotified = some 5 ∧
    3 ≤ 5 :=
  sequential_dispatch_monotone freshEntity 3 5 none none none none none none
    none none (by decide)

/-- C6: for a target that does not override the asynchronous path, the
default `async_send_message` is exactly the submission of the blocking
`send_message` to a worker with the same four arguments in the same order
(the spec-side model `specSubmitBlockingSend`), and running that job gives
the blocking call's own result, so the async wrapper and the blocking call
have the same delivery behavior. -/
theorem default_async_send_is_worker_submit (e : NotifyEntity)
    (h : e.asyncSendMessageOverride = none) (m t : Option String)
    (r : Option (List String)) (d : Option DataDict) :
    e.async_send_message m t r d = (specSubmitBlockingSend e m t r d).run ∧
    (specSubmitBlockingSend e m t r d).run = e.send_message m t r d := by
  unfold NotifyEntity.async_send_message
  rw [h]
  exact ⟨rfl, rfl⟩

/-- Closed instance of C6's theorem at a concrete target implementation. -/
theorem default_async_send_is_worker_submit_witness :
    (sampleEntity.async_send_message (some hiText) none none none =
      (specSubmitBlockingSend sampleEntity (some hiText) none none none).run ∧
    (specSubmitBlockingSend sampleEntity (some hiText) none none none).run =
      sampleEntity.send_message (some hiText) none none none) ∧
    sampleEntity.async_send_message (some hiText) none none none = .ok () :=
  ⟨default_async_send_is_worker_submit sampleEntity rfl (some hiText) none none none,
   rfl⟩

/-- C7: the device class resolves from the explicit per-instance override
when present, else from the static entity description, else to `None`; the
cached accessor never returns a value stale with respect to a write, since
writing the override empties the cache and an empty cache makes the
accessor evaluate the pure resolution. -/
theorem device_class_resolution :
    (∀ (e : NotifyEntity) (v : Option NotifyDeviceClass),
       e.attrDeviceClass = some v → e.device_class = v) ∧
    (∀ (e : NotifyEntity) (d : NotifyEntityDescription),
       e.attrDeviceClass = none → e.entityDescription = some d →
       e.device_class = d.device_class) ∧
    (∀ e : NotifyEntity, e.attrDeviceClass = none → e.entityDescription = none →
       e.device_class = none) ∧
    (∀ (e : NotifyEntity) (v : Option NotifyDeviceClass),
       (e.setAttrDeviceClass v).deviceClassRead.1 =
         (e.setAttrDeviceClass v).device_class) ∧
    (∀ e : NotifyEntity, e.deviceClassCache = none →
       e.deviceClassRead.1 = e.device_class) := by
  refine ⟨fun e v h => ?_, fun e d h1 h2 => ?_, fun e h1 h2 => ?_,
    fun e v => rfl, fun e h => ?_⟩
  · simp [NotifyEntity.device_class, h]
  · simp [NotifyEntity.device_class, h1, h2]
  · simp [NotifyEntity.device_class, h1, h2]
  · simp [NotifyEntity.deviceClassRead, h]

/-- Closed instance of C7's theorem exercising each resolution case and the
cache-consistency parts. -/
theorem device_class_resolution_witness :
    (freshEntity.setAttrDeviceClass (some .message_notifier)).device_class =
      some .message_notifier ∧
    ({ freshEntity with
        entityDescription := some { device_class := some .message_notifier }
      } : NotifyEntity).device_class = some .message_notifier ∧
    freshEntity.device_class = none ∧
    (freshEntity.setAttrDeviceClass none).deviceClassRead.1 =
      (freshEntity.setAttrDeviceClass none).device_class ∧
    freshEntity.deviceClassRead.1 = freshEntity.device_class :=
  ⟨device_class_resolution.1 _ (some .message_notifier) rfl,
   device_class_resolution.2.1 _ { device_class := some .message_notifier } rfl rfl,
   device_class_resolution.2.2.1 freshEntity rfl rfl,
   device_class_resolution.2.2.2.1 freshEntity none,
   device_class_resolution.2.2.2.2 freshEntity rfl⟩

/-- C8: a `send_message` service call with every optional field omitted is
accepted; a call is accepted exactly when each present field has the
required shape (strings for message and title, a sequence of strings for
recipients, a mapping for data); and a call that fails validation is
rejected before resolution with no state mutation anywhere. -/
theorem send_message_schema_validation :
    SERVICE_SEND_MESSAGE_SCHEMA {} = true ∧
    (∀ c : ServiceCallData,
       SERVICE_SEND_MESSAGE_SCHEMA c = true ↔
       (c.message.all isStringVal = true ∧ c.title.all isStringVal = true ∧
        c.recipients.all isStringListVal = true ∧ c.data.all isDictVal = true)) ∧
    (∀ (reg : Registry) (id_ : String) (c : ServiceCallData) (now : Timestamp),
       SERVICE_SEND_MESSAGE_SCHEMA c = false →
       handle_send_message reg id_ c now = (reg, .validationFailure)) := by
  refine ⟨rfl, fun c => ?_, fun reg id_ c now h => ?_⟩
  · cases c with
    | mk m t r d =>
      simp [SERVICE_SEND_MESSAGE_SCHEMA, Option.all]
      cases m <;> cases t <;> cases r <;> cases d <;> simp [and_assoc]
  · simp [handle_send_message, h]

/-- Closed instance of C8's theorem: a call whose message is a number fails
validation and mutates nothing. -/
theorem send_message_schema_validation_witness :
    SERVICE_SEND_MESSAGE_SCHEMA { message := some (.num 3) } = false ∧
    handle_send_message sampleRegistry pagerId { message := some (.num 3) } 0 =
      (sampleRegistry, .validationFailure) :=
  ⟨rfl, send_message_schema_validation.2.2 sampleRegistry pagerId
    { message := some (.num 3) } 0 rfl⟩

/-- C9: the base-class `send_message` fails with `NotImplementedError` on
every input, so a target overriding neither send path has every dispatch
end in a send failure, with the activation timestamp already stamped. -/
theorem base_send_message_not_implemented (e : NotifyEntity)
    (h1 : e.sendMessageOverride = none) (h2 : e.asyncSendMessageOverride = none)
    (now : Timestamp) (m t : Option String) (r : Option (List String))
    (d : Option DataDict) :
    e.send_message m t r d = .error .notImplemented ∧
    (e._async_send_message now m t r d).2.1 = .error .notImplemented ∧
    (e._async_send_message now m t r d).1.lastNotified = some now := by
  refine ⟨?_, ?_, rfl⟩
  · simp [NotifyEntity.send_message, h1]
  · simp [NotifyEntity._async_send_message, NotifyEntity.async_send_message,
      NotifyEntity.stateRead, NotifyEntity.set_state, h2, ExecutorJob.run,
      NotifyEntity.send_message, h1]

/-- Closed instance of C9's theorem at the default entity. -/
theorem base_send_message_not_implemented_witness :
    freshEntity.send_message (some hiText) none none none =
      .error .notImplemented ∧
    (freshEntity._async_send_message 9 (some hiText) none none none).2.1 =
      .error .notImplemented ∧
    (freshEntity._async_send_message 9 (some hiText) none none none).1.lastNotified =
      some 9 :=
  base_send_message_not_implemented freshEntity rfl rfl 9 (some hiText) none none none

/-- C10: the `state` accessor is read-after-write consistent — immediately
after `__set_state(s)` it returns exactly `s`, and after any sequence of
writes it returns the last value written, because every write empties the
cached-property cache before assigning. -/
theorem state_read_after_write :
    (∀ (e : NotifyEntity) (s : Option Timestamp),
       (e.set_state s).stateRead.1 = s) ∧
    (∀ (e : NotifyEntity) (ws : List (Option Timestamp)) (w : Option Timestamp),
       ((ws ++ [w]).foldl NotifyEntity.set_state e).stateRead.1 = w) := by
  refine ⟨fun e s => rfl, fun e ws w => ?_⟩
  rw [List.foldl_append]
  rfl
